import Mathlib

/-!
Verification development for the CodeRefine AI Engine backend
(`Project/Backend/main.py`): a FastAPI application exposing the two
endpoints `POST /review` and `POST /translate`, which relay user code to an
external chat-completion service and parse the model reply.

The embedding models:
* JSON values (as produced by `json.loads`; JSON number literals are
  modeled as integers, which is sufficient for every property below since
  the handlers only ever coerce, compare and relay values),
* Python's `int(...)` coercion as used on the two score fields,
* pydantic request-body validation for `CodeRequest` and
  `TranslateRequest` (missing / wrongly-typed fields yield a 422
  validation error before the handler runs),
* the two handler bodies (`review_code`, `translate_code`) including their
  `try/except` structure, and
* FastAPI's `response_model=CodeResponse` validation applied to the value
  returned by the review handler (declared fields are checked and kept,
  undeclared fields are dropped; a validation failure escapes the handler
  and surfaces as a plain 500 "Internal Server Error").

The model reply is quantified over: the upstream call either raises, or
returns text that `json.loads` rejects, or returns text parsing to a JSON
value.
-/

/-- JSON values as returned by `json.loads`.  Objects are association
lists in insertion order (Python dicts preserve insertion order; `json.loads`
deduplicates keys, so lookup of the first match is exact). -/
inductive Json where
  | null : Json
  | bool (b : Bool) : Json
  | int (n : Int) : Json
  | str (s : String) : Json
  | arr (elems : List Json) : Json
  | obj (fields : List (String × Json)) : Json

/-- Lookup of a key in a JSON object's field list (Python `d[k]` / `d.get(k)`). -/
def findField : List (String × Json) → String → Option Json
  | [], _ => none
  | (k2, v) :: rest, k => if k2 = k then some v else findField rest k

/-- Update of a key in a JSON object's field list (Python `d[k] = v`):
an existing key is overwritten in place, a new key is appended at the end,
matching Python dict insertion-order semantics. -/
def setField : List (String × Json) → String → Json → List (String × Json)
  | [], k, v => [(k, v)]
  | (k2, v2) :: rest, k, v =>
    if k2 = k then (k, v) :: rest else (k2, v2) :: setField rest k v

/-- Field access on a JSON value; `none` when the value is not an object
or the key is missing. -/
def Json.getField : Json → String → Option Json
  | .obj fs, k => findField fs k
  | _, _ => none

/-- ASCII decimal digit test. -/
def isPyDigit (c : Char) : Bool :=
  ('0' ≤ c && c ≤ '9')

/-- Digit/underscore body of a Python integer literal: every character is a
digit, except that a single underscore may separate two digits
(`int("1_0")` is legal, `int("1__0")`, `int("1_")` are not). -/
def digitsCore : List Char → Bool
  | [] => true
  | [c] => isPyDigit c
  | c :: d :: rest =>
    if isPyDigit c then digitsCore (d :: rest)
    else c = '_' && isPyDigit d && digitsCore (d :: rest)

/-- A valid unsigned Python integer-literal body: nonempty, starts with a
digit, and satisfies `digitsCore`. -/
def pyDigitsOk : List Char → Bool
  | [] => false
  | c :: cs => isPyDigit c && digitsCore (c :: cs)

/-- Numeric value of a digit/underscore list (underscores are skipped). -/
def digitsVal (cs : List Char) : Nat :=
  cs.foldl (fun a c => if isPyDigit c then a * 10 + (c.toNat - 48) else a) 0

/-- Drop leading whitespace characters. -/
def dropWhitespace : List Char → List Char
  | [] => []
  | c :: cs => if c.isWhitespace then dropWhitespace cs else c :: cs

/-- Python `str.strip()` on a character list: drop leading and trailing
whitespace. -/
def pyStrip (cs : List Char) : List Char :=
  (dropWhitespace (dropWhitespace cs).reverse).reverse

/-- Python `int(s)` on a string: surrounding whitespace is stripped, an
optional sign is allowed, then a digit sequence with optional single
underscores between digits.  `none` models the `ValueError` raise. -/
def pyIntOfString? (s : String) : Option Int :=
  match pyStrip s.data with
  | '-' :: rest => if pyDigitsOk rest then some (-(digitsVal rest : Int)) else none
  | '+' :: rest => if pyDigitsOk rest then some ((digitsVal rest : Int)) else none
  | cs => if pyDigitsOk cs then some ((digitsVal cs : Int)) else none

/-- Python `int(v)` on a decoded JSON value: integers pass through,
booleans become 0/1 (`bool` is an `int` subclass), strings are parsed as
integer literals (raising `ValueError` otherwise), and every other value
raises `TypeError`. -/
def pyInt : Json → Except String Int
  | .int n => .ok n
  | .bool b => .ok (if b then 1 else 0)
  | .str s =>
    match pyIntOfString? s with
    | some n => .ok n
    | none => .error ("ValueError: invalid literal for int() with base 10: " ++ s)
  | _ => .error "TypeError: int() argument is not a string or a number"

/-- Request body of `POST /review` (pydantic model `CodeRequest`). -/
structure CodeRequest where
  code : String

/-- Request body of `POST /translate` (pydantic model `TranslateRequest`). -/
structure TranslateRequest where
  code : String
  target_language : String

/-- An HTTP response: status code and JSON body (a plain-text body such as
Starlette's "Internal Server Error" page is modeled as a JSON string). -/
structure HttpResponse where
  status : Nat
  body : Json

/-- Outcome of the upstream call `client.chat.completions.create(...)`
followed by `json.loads` on the returned content: the call raises, or the
content is not valid JSON (so `json.loads` raises), or it decodes to a
JSON value.  The carried string is Python's `str(e)` for the raise. -/
inductive ModelReply where
  | raise (msg : String) : ModelReply
  | notJson (msg : String) : ModelReply
  | json (j : Json) : ModelReply

/-- One entry of FastAPI's 422 validation-error `detail` list. -/
def fieldErr (ty msg : String) (loc : List String) : Json :=
  .obj [("type", .str ty), ("loc", .arr (loc.map Json.str)), ("msg", .str msg)]

/-- pydantic validation of one required `str` field of a request body. -/
def checkStrField (fs : List (String × Json)) (k : String) : Except Json String :=
  match findField fs k with
  | none => .error (fieldErr "missing" "Field required" ["body", k])
  | some (.str s) => .ok s
  | some _ => .error (fieldErr "string_type" "Input should be a valid string" ["body", k])

/-- Collect the error of a single field check, if any. -/
def errList {α : Type} : Except Json α → List Json
  | .ok _ => []
  | .error e => [e]

/-- pydantic validation of a `/review` request body against `CodeRequest`. -/
def validateCodeRequest (body : Json) : Except (List Json) CodeRequest :=
  match body with
  | .obj fs =>
    match checkStrField fs "code" with
    | .ok c => .ok ⟨c⟩
    | .error e => .error [e]
  | _ => .error [fieldErr "model_attributes_type"
      "Input should be a valid dictionary or object to extract fields from" ["body"]]

/-- pydantic validation of a `/translate` request body against
`TranslateRequest`; errors for all invalid fields are collected. -/
def validateTranslateRequest (body : Json) : Except (List Json) TranslateRequest :=
  match body with
  | .obj fs =>
    match checkStrField fs "code", checkStrField fs "target_language" with
    | .ok c, .ok t => .ok ⟨c, t⟩
    | r1, r2 => .error (errList r1 ++ errList r2)
  | _ => .error [fieldErr "model_attributes_type"
      "Input should be a valid dictionary or object to extract fields from" ["body"]]

/-- The declared type of a `CodeResponse` field. -/
inductive FieldTy where
  | int : FieldTy
  | str : FieldTy
  | strList : FieldTy

/-- Is a JSON value a string? -/
def isStrJson : Json → Bool
  | .str _ => true
  | _ => false

/-- Does a JSON value have a declared field type (`int`, `str`, or
`list[str]`)? -/
def tyOk : FieldTy → Json → Bool
  | .int, .int _ => true
  | .str, .str _ => true
  | .strList, .arr xs => xs.all isStrJson
  | _, _ => false

/-- The nine declared fields of the response model `CodeResponse` with
their types, in declaration order. -/
def codeResponseSchema : List (String × FieldTy) :=
  [("original_score", .int), ("refined_score", .int), ("bugs", .str),
   ("performance", .str), ("improvements", .strList), ("optimized_code", .str),
   ("explanation", .str), ("time_complexity", .str), ("space_complexity", .str)]

/-- The names of the nine declared `CodeResponse` fields. -/
def codeResponseFields : List String :=
  codeResponseSchema.map Prod.fst

/-- Is the declared field `p.1` present in `j` with its declared type
`p.2`? -/
def fieldOk (j : Json) (p : String × FieldTy) : Bool :=
  match j.getField p.1 with
  | some v => tyOk p.2 v
  | none => false

/-- Does a JSON value satisfy the `CodeResponse` schema: every declared
field present with the declared type? -/
def checkCodeResponse (j : Json) : Bool :=
  codeResponseSchema.all (fieldOk j)

/-- FastAPI's `response_model=CodeResponse` step applied to the value the
handler returned: on success the serialized body holds exactly the nine
declared fields (undeclared fields are dropped); on failure a
`ResponseValidationError` escapes the handler. -/
def validateCodeResponse (j : Json) : Except String Json :=
  if checkCodeResponse j then
    .ok (Json.obj (codeResponseSchema.map (fun p => (p.1, (j.getField p.1).getD Json.null))))
  else .error "ResponseValidationError"

/-- The two score coercions of the review handler:
`ai_data["original_score"] = int(ai_data.get("original_score", 0))` and
then the same for `"refined_score"`, in program order. -/
def coerceScores (fs : List (String × Json)) : Except String (List (String × Json)) :=
  match pyInt ((findField fs "original_score").getD (Json.int 0)) with
  | .error e => .error e
  | .ok o =>
    match pyInt ((findField (setField fs "original_score" (Json.int o))
        "refined_score").getD (Json.int 0)) with
    | .error e => .error e
    | .ok r =>
      .ok (setField (setField fs "original_score" (Json.int o)) "refined_score" (Json.int r))

/-- The `try` block of `review_code`: the upstream call (which may raise),
`json.loads` on the reply (which may raise), the `.get` calls (which raise
`AttributeError` when the decoded value is not a dict), and the two
integer coercions. -/
def reviewTryBody : ModelReply → Except String Json
  | .raise msg => .error msg
  | .notJson msg => .error msg
  | .json (.obj fs) => (coerceScores fs).map Json.obj
  | .json _ => .error "AttributeError: object has no attribute get"

/-- The `review_code` handler plus FastAPI's response-model step: any
exception inside the `try` block becomes
`HTTPException(500, "Heuristic analysis engine failed.")`; a value that
fails `CodeResponse` validation becomes a plain 500 after the handler has
returned; otherwise 200 with the serialized `CodeResponse`. -/
def review_code (_req : CodeRequest) (reply : ModelReply) : HttpResponse :=
  match reviewTryBody reply with
  | .error _e => ⟨500, .obj [("detail", .str "Heuristic analysis engine failed.")]⟩
  | .ok d =>
    match validateCodeResponse d with
    | .error _e => ⟨500, .str "Internal Server Error"⟩
    | .ok out => ⟨200, out⟩

/-- The `translate_code` handler: any exception in the `try` block is
absorbed into a 200 response whose `translated_code` embeds `str(e)`;
a successfully decoded reply is returned as-is (no response model is
declared on `/translate`). -/
def translate_code (_req : TranslateRequest) (reply : ModelReply) : HttpResponse :=
  match reply with
  | .raise msg => ⟨200, .obj [("translated_code", .str ("// Translation error: " ++ msg))]⟩
  | .notJson msg => ⟨200, .obj [("translated_code", .str ("// Translation error: " ++ msg))]⟩
  | .json j => ⟨200, j⟩

/-- `POST /review`: body validation against `CodeRequest`, then the
handler.  A validation failure yields FastAPI's 422 response and the
handler (hence the upstream call) never runs. -/
def reviewEndpoint (body : Json) (reply : ModelReply) : HttpResponse :=
  match validateCodeRequest body with
  | .error errs => ⟨422, .obj [("detail", .arr errs)]⟩
  | .ok req => review_code req reply

/-- `POST /translate`: body validation against `TranslateRequest`, then
the handler. -/
def translateEndpoint (body : Json) (reply : ModelReply) : HttpResponse :=
  match validateTranslateRequest body with
  | .error errs => ⟨422, .obj [("detail", .arr errs)]⟩
  | .ok req => translate_code req reply

/-- Does the character list `p` start the character list `s`? -/
def charsStart : List Char → List Char → Bool
  | _, [] => true
  | [], _ :: _ => false
  | c :: cs, d :: ds => c = d && charsStart cs ds

/-- Does the character list `p` occur inside the character list `s`? -/
def charsHas : List Char → List Char → Bool
  | [], p => charsStart [] p
  | c :: cs, p => charsStart (c :: cs) p || charsHas cs p

/-- Substring occurrence test on strings. -/
def strContains (s pat : String) : Bool :=
  charsHas s.data pat.data

/-- The five numbered rubric lines of the review system prompt, exactly as
concatenated in the source. -/
def rubricLines : List String :=
  ["1. Logic & Correctness (30 pts): Does it work? Are there edge-case bugs?\n",
   "2. Time/Space Efficiency (25 pts): Is the algorithm optimal (Big O)?\n",
   "3. Security & Safety (15 pts): Are there vulnerabilities or crash risks?\n",
   "4. Readability & Standards (15 pts): Variable naming, clean code patterns?\n",
   "5. Maintainability (15 pts): Is the architecture scalable?\n"]

/-- The point weights named in the five rubric lines, in order. -/
def rubricPoints : List Nat := [30, 25, 15, 15, 15]

/-- The "STRICT RULES" lines of the review system prompt, exactly as
concatenated in the source. -/
def strictRuleLines : List String :=
  ["STRICT RULES:\n",
   "- Calculate the \x27original_score\x27 by summing the points above for the USER\x27S code.\n",
   "- Calculate the \x27refined_score\x27 for YOUR optimized version (this should be 95-100).\n",
   "- If the user\x27s code is already optimal, \x27original_score\x27 must be 100.\n",
   "- \x27optimized_code\x27 must be a single string. Use \x27\\n\x27 for new lines and escape all quotes.\n",
   "- Return ONLY a valid JSON object. No markdown, no triple quotes.\n\n"]

/-- The JSON-schema block of the review system prompt, exactly as in the
source. -/
def jsonSchemaBlock : String :=
  "JSON Schema:\n"
  ++ "\x7b\n"
  ++ "    \"original_score\": int,\n"
  ++ "    \"refined_score\": int,\n"
  ++ "    \"bugs\": \"string\",\n"
  ++ "    \"performance\": \"string\",\n"
  ++ "    \"improvements\": [\"list\"],\n"
  ++ "    \"optimized_code\": \"string\",\n"
  ++ "    \"explanation\": \"string\",\n"
  ++ "    \"time_complexity\": \"string\",\n"
  ++ "    \"space_complexity\": \"string\"\n"
  ++ "\x7d"

/-- The full system prompt of `review_code` (the adjacent string literals
of the source, concatenated). -/
def review_system_prompt : String :=
  "You are a strict Senior Software Architect. Analyze code using this exact 100-point rubric:\n"
  ++ String.join rubricLines ++ "\n"
  ++ String.join strictRuleLines
  ++ jsonSchemaBlock

/-- The system prompt of `translate_code` for a given target language. -/
def translate_system_prompt (target_language : String) : String :=
  "You are a polyglot expert. Translate this code to " ++ target_language ++ ".\n"
  ++ "Rules: Return ONLY JSON: \x7b\"translated_code\": \"string\"\x7d. "
  ++ "Use \x27\\n\x27 and escape double quotes. No markdown tags."

/-- One chat message passed to `client.chat.completions.create`. -/
structure ChatMessage where
  role : String
  content : String

/-- The keyword arguments of `client.chat.completions.create` as used by
both handlers.  The sampling temperature is an exact decimal in the
source (`0.1`), modeled as a rational. -/
structure ChatParams where
  messages : List ChatMessage
  model : String
  temperature : Rat
  response_format : String

/-- The `create` arguments built by `review_code` for a request. -/
def reviewChatParams (req : CodeRequest) : ChatParams :=
  { messages :=
      [⟨"system", review_system_prompt⟩,
       ⟨"user", "Perform a rubric-based review of this code:\n\n" ++ req.code⟩],
    model := "llama-3.3-70b-versatile",
    temperature := 0.1,
    response_format := "json_object" }

/-- The `create` arguments built by `translate_code` for a request. -/
def translateChatParams (req : TranslateRequest) : ChatParams :=
  { messages :=
      [⟨"system", translate_system_prompt req.target_language⟩,
       ⟨"user", req.code⟩],
    model := "llama-3.3-70b-versatile",
    temperature := 0.1,
    response_format := "json_object" }

/-- The module-level Groq client handle (`AsyncClient(api_key=...)`). -/
structure GroqClient where
  api_key : String

/-- The application state built at import time: the single long-lived
client handle shared by both handlers. -/
structure App where
  client : GroqClient

/-- Module-level startup: `os.getenv("GROQ_API_KEY")` yields `none` when
the variable is unset; `if not GROQ_API_KEY` raises `ValueError` for a
missing *or empty* value (Python string falsiness), otherwise the single
`AsyncClient` is constructed. -/
def startup (env_key : Option String) : Except String App :=
  match env_key with
  | none => .error "CRITICAL: GROQ_API_KEY is not set in the .env file."
  | some k =>
    if k = "" then .error "CRITICAL: GROQ_API_KEY is not set in the .env file."
    else .ok ⟨⟨k⟩⟩

/-- The upstream call performed by `review_code`: the module-level client
together with the `create` arguments. -/
def reviewCreateCall (app : App) (req : CodeRequest) : GroqClient × ChatParams :=
  (app.client, reviewChatParams req)

/-- The upstream call performed by `translate_code`. -/
def translateCreateCall (app : App) (req : TranslateRequest) : GroqClient × ChatParams :=
  (app.client, translateChatParams req)

/-! ### Helper lemmas -/

theorem findField_setField_self (fs : List (String × Json)) (k : String) (v : Json) :
    findField (setField fs k v) k = some v := by
  induction fs with
  | nil => simp [setField, findField]
  | cons a t ih =>
    obtain ⟨k2, v2⟩ := a
    by_cases h : k2 = k
    · simp [setField, findField, h]
    · simp [setField, findField, h, ih]

theorem findField_setField_of_ne (fs : List (String × Json)) (k k2 : String) (v : Json)
    (h : k ≠ k2) : findField (setField fs k v) k2 = findField fs k2 := by
  induction fs with
  | nil => simp [setField, findField, h]
  | cons a t ih =>
    obtain ⟨k3, v3⟩ := a
    by_cases h3 : k3 = k
    · subst h3
      simp [setField, findField, h]
    · simp [setField, findField, h3, ih]

theorem coerceScores_ok_inv (fs fs2 : List (String × Json))
    (h : coerceScores fs = .ok fs2) :
    ∃ o r, pyInt ((findField fs "original_score").getD (Json.int 0)) = .ok o ∧
      pyInt ((findField fs "refined_score").getD (Json.int 0)) = .ok r ∧
      fs2 = setField (setField fs "original_score" (Json.int o)) "refined_score" (Json.int r) := by
  unfold coerceScores at h
  cases ho : pyInt ((findField fs "original_score").getD (Json.int 0)) with
  | error e => rw [ho] at h; exact absurd h (by simp)
  | ok o =>
    rw [ho] at h
    dsimp only at h
    rw [findField_setField_of_ne fs "original_score" "refined_score" (Json.int o)
      (by decide)] at h
    cases hr : pyInt ((findField fs "refined_score").getD (Json.int 0)) with
    | error e => rw [hr] at h; exact absurd h (by simp)
    | ok r =>
      rw [hr] at h
      dsimp only at h
      simp at h
      exact ⟨o, r, rfl, rfl, h.symm⟩

theorem validateCodeResponse_ok_inv (d out : Json) (h : validateCodeResponse d = .ok out) :
    checkCodeResponse d = true ∧
    out = Json.obj (codeResponseSchema.map (fun p => (p.1, (d.getField p.1).getD Json.null))) := by
  unfold validateCodeResponse at h
  split at h
  · next hc => simp at h; exact ⟨hc, h.symm⟩
  · exact absurd h (by simp)

theorem reviewTryBody_ok_inv (reply : ModelReply) (d : Json) (h : reviewTryBody reply = .ok d) :
    ∃ fs o r, reply = .json (.obj fs) ∧
      pyInt ((findField fs "original_score").getD (Json.int 0)) = .ok o ∧
      pyInt ((findField fs "refined_score").getD (Json.int 0)) = .ok r ∧
      d = .obj (setField (setField fs "original_score" (Json.int o))
        "refined_score" (Json.int r)) := by
  cases reply with
  | raise m => exact absurd h (by simp [reviewTryBody])
  | notJson m => exact absurd h (by simp [reviewTryBody])
  | json j =>
    cases j with
    | null => exact absurd h (by simp [reviewTryBody])
    | bool b => exact absurd h (by simp [reviewTryBody])
    | int n => exact absurd h (by simp [reviewTryBody])
    | str s => exact absurd h (by simp [reviewTryBody])
    | arr xs => exact absurd h (by simp [reviewTryBody])
    | obj fs =>
      simp only [reviewTryBody] at h
      cases hc : coerceScores fs with
      | error e => rw [hc] at h; exact absurd h (by simp [Except.map])
      | ok fs2 =>
        rw [hc] at h
        simp [Except.map] at h
        obtain ⟨o, r, h1, h2, h3⟩ := coerceScores_ok_inv fs fs2 hc
        exact ⟨fs, o, r, rfl, h1, h2, by rw [← h, h3]⟩

theorem reviewEndpoint_200_inv (body : Json) (reply : ModelReply)
    (h : (reviewEndpoint body reply).status = 200) :
    ∃ req d out, validateCodeRequest body = .ok req ∧
      reviewTryBody reply = .ok d ∧ validateCodeResponse d = .ok out ∧
      reviewEndpoint body reply = ⟨200, out⟩ := by
  unfold reviewEndpoint at h ⊢
  cases hv : validateCodeRequest body with
  | error errs => rw [hv] at h; simp at h
  | ok req =>
    rw [hv] at h
    dsimp only at h ⊢
    unfold review_code at h ⊢
    cases ht : reviewTryBody reply with
    | error e => rw [ht] at h; simp at h
    | ok d =>
      rw [ht] at h
      dsimp only at h ⊢
      cases hval : validateCodeResponse d with
      | error e => rw [hval] at h; simp at h
      | ok out =>
        rw [hval] at h
        exact ⟨req, d, out, rfl, rfl, hval, rfl⟩

theorem fieldOk_int_inv (d : Json) (k : String) (h : fieldOk d (k, FieldTy.int) = true) :
    ∃ n : Int, d.getField k = some (.int n) := by
  unfold fieldOk at h
  cases hv : d.getField k with
  | none => rw [hv] at h; simp at h
  | some v =>
    rw [hv] at h
    cases v <;> simp [tyOk] at h
    exact ⟨_, rfl⟩

theorem checkCodeResponse_scores (d : Json) (h : checkCodeResponse d = true) :
    (∃ n : Int, d.getField "original_score" = some (.int n)) ∧
    (∃ n : Int, d.getField "refined_score" = some (.int n)) := by
  simp [checkCodeResponse, codeResponseSchema] at h
  exact ⟨fieldOk_int_inv d _ h.1, fieldOk_int_inv d _ h.2.1⟩

theorem builtResponse_getField_original (d : Json) :
    (Json.obj (codeResponseSchema.map (fun p => (p.1, (d.getField p.1).getD Json.null)))).getField
      "original_score" = some ((d.getField "original_score").getD Json.null) := by
  simp [codeResponseSchema, Json.getField, findField]

theorem builtResponse_getField_refined (d : Json) :
    (Json.obj (codeResponseSchema.map (fun p => (p.1, (d.getField p.1).getD Json.null)))).getField
      "refined_score" = some ((d.getField "refined_score").getD Json.null) := by
  simp [codeResponseSchema, Json.getField, findField]

theorem builtResponse_getField_of_not_mem (d : Json) (k : String)
    (h : k ∉ codeResponseFields) :
    (Json.obj (codeResponseSchema.map (fun p => (p.1, (d.getField p.1).getD Json.null)))).getField
      k = none := by
  simp [codeResponseFields, codeResponseSchema] at h
  obtain ⟨h1, h2, h3, h4, h5, h6, h7, h8, h9⟩ := h
  simp [codeResponseSchema, Json.getField, findField, Ne.symm h1, Ne.symm h2, Ne.symm h3,
    Ne.symm h4, Ne.symm h5, Ne.symm h6, Ne.symm h7, Ne.symm h8, Ne.symm h9]

theorem checkCodeResponse_no_bugs (d : Json) (h : d.getField "bugs" = none) :
    checkCodeResponse d = false := by
  have hb : fieldOk d ("bugs", FieldTy.str) = false := by simp [fieldOk, h]
  simp [checkCodeResponse, codeResponseSchema, hb]

/-! ### Further shared helpers -/

theorem reviewEndpoint_of_tryError (body : Json) (req : CodeRequest) (reply : ModelReply)
    (e : String) (hv : validateCodeRequest body = .ok req)
    (ht : reviewTryBody reply = .error e) :
    reviewEndpoint body reply =
      ⟨500, .obj [("detail", .str "Heuristic analysis engine failed.")]⟩ := by
  unfold reviewEndpoint review_code
  rw [hv, ht]

theorem reviewTryBody_obj_getField_other (fs : List (String × Json)) (d : Json) (k : String)
    (ht : reviewTryBody (.json (.obj fs)) = .ok d)
    (h1 : k ≠ "original_score") (h2 : k ≠ "refined_score") :
    d.getField k = findField fs k := by
  obtain ⟨fs2, o, r, hj, _, _, hd⟩ := reviewTryBody_ok_inv _ d ht
  injection hj with hj2
  injection hj2 with hj3
  subst hj3
  rw [hd]
  simp only [Json.getField]
  rw [findField_setField_of_ne _ _ _ _ (Ne.symm h2),
    findField_setField_of_ne _ _ _ _ (Ne.symm h1)]

theorem coerceScores_error_of_bad_original (fs : List (String × Json)) (s : String)
    (hfield : findField fs "original_score" = some (.str s))
    (hbad : pyIntOfString? s = none) :
    ∃ e, coerceScores fs = .error e := by
  unfold coerceScores
  rw [hfield]
  simp [pyInt, hbad]

theorem coerceScores_error_of_bad_refined (fs : List (String × Json)) (s : String) (o : Int)
    (hfield : findField fs "refined_score" = some (.str s))
    (hbad : pyIntOfString? s = none)
    (ho : pyInt ((findField fs "original_score").getD (Json.int 0)) = .ok o) :
    ∃ e, coerceScores fs = .error e := by
  unfold coerceScores
  rw [ho]
  dsimp only
  rw [findField_setField_of_ne _ _ _ _ (by decide), hfield]
  simp [pyInt, hbad]

theorem reviewTryBody_error_of_coerce_error (fs : List (String × Json)) (e : String)
    (hc : coerceScores fs = .error e) :
    reviewTryBody (.json (.obj fs)) = .error e := by
  simp [reviewTryBody, hc, Except.map]

theorem reviewTryBody_default_original (fs : List (String × Json)) (d : Json)
    (hnone : findField fs "original_score" = none)
    (ht : reviewTryBody (.json (.obj fs)) = .ok d) :
    d.getField "original_score" = some (.int 0) := by
  obtain ⟨fs2, o, r, hj, hpo, _, hd⟩ := reviewTryBody_ok_inv _ d ht
  injection hj with hj2
  injection hj2 with hj3
  subst hj3
  rw [hnone] at hpo
  simp [pyInt] at hpo
  rw [hd]
  simp only [Json.getField]
  rw [findField_setField_of_ne _ _ _ _ (by decide), findField_setField_self, ← hpo]

theorem reviewTryBody_default_refined (fs : List (String × Json)) (d : Json)
    (hnone : findField fs "refined_score" = none)
    (ht : reviewTryBody (.json (.obj fs)) = .ok d) :
    d.getField "refined_score" = some (.int 0) := by
  obtain ⟨fs2, o, r, hj, _, hpr, hd⟩ := reviewTryBody_ok_inv _ d ht
  injection hj with hj2
  injection hj2 with hj3
  subst hj3
  rw [hnone] at hpr
  simp [pyInt] at hpr
  rw [hd]
  simp only [Json.getField]
  rw [findField_setField_self, ← hpr]

/-! ### Claim theorems -/

/-- Claim C3: for every valid review request, any failure inside the
handler body (upstream raise, unparseable model reply, or any other
exception such as a failing coercion) yields exactly HTTP 500 with body
`detail = "Heuristic analysis engine failed."`; the response is a fixed
constant, so the underlying error message `e` is not exposed. -/
theorem C3_review_failure_maps_to_500 (body : Json) (req : CodeRequest)
    (reply : ModelReply) (e m : String)
    (hv : validateCodeRequest body = .ok req)
    (hf : reviewTryBody reply = .error e) :
    reviewEndpoint body reply =
      ⟨500, .obj [("detail", .str "Heuristic analysis engine failed.")]⟩ ∧
    reviewEndpoint body (.raise m) =
      ⟨500, .obj [("detail", .str "Heuristic analysis engine failed.")]⟩ ∧
    reviewEndpoint body (.notJson m) =
      ⟨500, .obj [("detail", .str "Heuristic analysis engine failed.")]⟩ :=
  ⟨reviewEndpoint_of_tryError body req reply e hv hf,
   reviewEndpoint_of_tryError body req (.raise m) m hv rfl,
   reviewEndpoint_of_tryError body req (.notJson m) m hv rfl⟩

/-- Witness for C3 at a concrete request and a concrete upstream failure. -/
theorem C3_witness :
    reviewEndpoint (Json.obj [("code", Json.str "print(1)")]) (ModelReply.raise "boom") =
      ⟨500, .obj [("detail", .str "Heuristic analysis engine failed.")]⟩ ∧
    reviewEndpoint (Json.obj [("code", Json.str "print(1)")]) (ModelReply.raise "nope") =
      ⟨500, .obj [("detail", .str "Heuristic analysis engine failed.")]⟩ ∧
    reviewEndpoint (Json.obj [("code", Json.str "print(1)")]) (ModelReply.notJson "nope") =
      ⟨500, .obj [("detail", .str "Heuristic analysis engine failed.")]⟩ :=
  C3_review_failure_maps_to_500 (Json.obj [("code", Json.str "print(1)")]) ⟨"print(1)"⟩
    (.raise "boom") "boom" "nope" rfl rfl

/-- Claim C4: for every valid translate request, an upstream raise or an
unparseable model reply is absorbed into a 200 response whose
`translated_code` is the comment `// Translation error: ` followed by the
failure message (so it contains the substring `Translation error: `
followed by that message). -/
theorem C4_translate_absorbs_failures (body : Json) (req : TranslateRequest) (m : String)
    (hv : validateTranslateRequest body = .ok req) :
    translateEndpoint body (.raise m) =
      ⟨200, .obj [("translated_code", .str ("// Translation error: " ++ m))]⟩ ∧
    translateEndpoint body (.notJson m) =
      ⟨200, .obj [("translated_code", .str ("// Translation error: " ++ m))]⟩ ∧
    "// Translation error: " ++ m = "// " ++ ("Translation error: " ++ m) := by
  unfold translateEndpoint translate_code
  rw [hv]
  refine ⟨rfl, rfl, ?_⟩
  rw [← String.append_assoc]
  exact congrArg (fun s => s ++ m) (by decide)

/-- Witness for C4 at a concrete request and failure message. -/
theorem C4_witness :
    translateEndpoint (Json.obj [("code", Json.str "x"), ("target_language", Json.str "Go")])
      (ModelReply.raise "connection reset") =
      ⟨200, .obj [("translated_code", .str ("// Translation error: " ++ "connection reset"))]⟩ ∧
    translateEndpoint (Json.obj [("code", Json.str "x"), ("target_language", Json.str "Go")])
      (ModelReply.notJson "connection reset") =
      ⟨200, .obj [("translated_code", .str ("// Translation error: " ++ "connection reset"))]⟩ ∧
    "// Translation error: " ++ "connection reset" =
      "// " ++ ("Translation error: " ++ "connection reset") :=
  C4_translate_absorbs_failures
    (Json.obj [("code", Json.str "x"), ("target_language", Json.str "Go")])
    ⟨"x", "Go"⟩ "connection reset" rfl

/-- Counterexample to claim C2: on a valid translate request, when the
model reply is a JSON object without a `translated_code` key, the endpoint
returns 200 whose body has no `translated_code` field at all — the claim
that the body always contains a non-empty `translated_code` string fails. -/
theorem C2_counterexample :
    (translateEndpoint
      (Json.obj [("code", Json.str "print(1)"), ("target_language", Json.str "Go")])
      (ModelReply.json (Json.obj [("result", Json.str "done")]))).status = 200 ∧
    (translateEndpoint
      (Json.obj [("code", Json.str "print(1)"), ("target_language", Json.str "Go")])
      (ModelReply.json (Json.obj [("result", Json.str "done")]))).body.getField
        "translated_code" = none :=
  ⟨rfl, rfl⟩

/-- Claim C2 as amended: for every valid translate request the status is
always 200; on upstream failure the body carries the non-empty
`translated_code` error string, while on a successfully decoded reply the
model's JSON is returned unchanged (so `translated_code` is present only
when the model supplied it). -/
theorem C2_amended (body : Json) (req : TranslateRequest) (reply : ModelReply)
    (hv : validateTranslateRequest body = .ok req) :
    (translateEndpoint body reply).status = 200 ∧
    (∀ m, (reply = .raise m ∨ reply = .notJson m) →
      (translateEndpoint body reply).body.getField "translated_code" =
        some (.str ("// Translation error: " ++ m)) ∧
      0 < ("// Translation error: " ++ m).length) ∧
    (∀ j, reply = .json j → (translateEndpoint body reply).body = j) := by
  unfold translateEndpoint
  rw [hv]
  dsimp only
  have hlen : ∀ m : String, 0 < ("// Translation error: " ++ m).length := by
    intro m
    rw [String.length_append]
    have h22 : ("// Translation error: " : String).length = 22 := rfl
    omega
  refine ⟨?_, ?_, ?_⟩
  · cases reply <;> rfl
  · rintro m (rfl | rfl) <;>
      exact ⟨by simp [translate_code, Json.getField, findField], hlen m⟩
  · rintro j rfl
    rfl

/-- Witness for C2 (amended) at a concrete request and reply. -/
theorem C2_amended_witness :
    (translateEndpoint
      (Json.obj [("code", Json.str "x"), ("target_language", Json.str "Rust")])
      (ModelReply.raise "boom")).status = 200 ∧
    (translateEndpoint
      (Json.obj [("code", Json.str "x"), ("target_language", Json.str "Rust")])
      (ModelReply.raise "boom")).body.getField "translated_code" =
      some (.str ("// Translation error: " ++ "boom")) ∧
    0 < ("// Translation error: " ++ "boom").length := by
  have h := C2_amended
    (Json.obj [("code", Json.str "x"), ("target_language", Json.str "Rust")])
    ⟨"x", "Rust"⟩ (ModelReply.raise "boom") rfl
  exact ⟨h.1, (h.2.1 "boom" (Or.inl rfl)).1, (h.2.1 "boom" (Or.inl rfl)).2⟩

/-- Claim C6: a request body (to either endpoint) whose object omits the
`code` field is rejected with a structured 422 validation error whose
detail names the missing `body.code` field; the status is 422 (not 500),
and the response does not depend on the model reply, i.e. the relay
(prompt construction and upstream call) never influences it. -/
theorem C6_missing_code_rejected (fs : List (String × Json)) (reply reply2 : ModelReply)
    (h : findField fs "code" = none) :
    reviewEndpoint (.obj fs) reply =
      ⟨422, .obj [("detail", .arr [fieldErr "missing" "Field required" ["body", "code"]])]⟩ ∧
    translateEndpoint (.obj fs) reply =
      ⟨422, .obj [("detail", .arr (fieldErr "missing" "Field required" ["body", "code"]
        :: errList (checkStrField fs "target_language")))]⟩ ∧
    (reviewEndpoint (.obj fs) reply).status = 422 ∧
    (translateEndpoint (.obj fs) reply).status = 422 ∧
    reviewEndpoint (.obj fs) reply = reviewEndpoint (.obj fs) reply2 ∧
    translateEndpoint (.obj fs) reply = translateEndpoint (.obj fs) reply2 := by
  have hcheck : checkStrField fs "code" =
      .error (fieldErr "missing" "Field required" ["body", "code"]) := by
    unfold checkStrField
    rw [h]
  have hrev : ∀ r, reviewEndpoint (.obj fs) r =
      ⟨422, .obj [("detail", .arr [fieldErr "missing" "Field required" ["body", "code"]])]⟩ := by
    intro r
    unfold reviewEndpoint validateCodeRequest
    dsimp only
    rw [hcheck]
  have htr : ∀ r, translateEndpoint (.obj fs) r =
      ⟨422, .obj [("detail", .arr (fieldErr "missing" "Field required" ["body", "code"]
        :: errList (checkStrField fs "target_language")))]⟩ := by
    intro r
    unfold translateEndpoint validateTranslateRequest
    dsimp only
    rw [hcheck]
    cases h2 : checkStrField fs "target_language" with
    | ok t => simp [errList]
    | error e2 => simp [errList]
  refine ⟨hrev reply, htr reply, ?_, ?_, ?_, ?_⟩
  · rw [hrev reply]
  · rw [htr reply]
  · rw [hrev reply, hrev reply2]
  · rw [htr reply, htr reply2]

/-- Witness for C6 at the empty request body and two distinct replies. -/
theorem C6_witness :
    reviewEndpoint (.obj []) (ModelReply.raise "x") =
      ⟨422, .obj [("detail", .arr [fieldErr "missing" "Field required" ["body", "code"]])]⟩ ∧
    translateEndpoint (.obj []) (ModelReply.raise "x") =
      ⟨422, .obj [("detail", .arr (fieldErr "missing" "Field required" ["body", "code"]
        :: errList (checkStrField [] "target_language")))]⟩ ∧
    (reviewEndpoint (.obj []) (ModelReply.raise "x")).status = 422 ∧
    (translateEndpoint (.obj []) (ModelReply.raise "x")).status = 422 ∧
    reviewEndpoint (.obj []) (ModelReply.raise "x") =
      reviewEndpoint (.obj []) (ModelReply.json (Json.obj [])) ∧
    translateEndpoint (.obj []) (ModelReply.raise "x") =
      translateEndpoint (.obj []) (ModelReply.json (Json.obj [])) :=
  C6_missing_code_rejected [] (ModelReply.raise "x") (ModelReply.json (Json.obj [])) rfl

/-- Claim C7: the review system prompt is a fixed string independent of
the request: it names the five weighted rubric criteria (30, 25, 15, 15,
15 points, summing to 100), instructs an optimized rewrite scored 95-100,
requires a single JSON object with newlines and quotes escaped, and the
submitted code is appended at the end of the user message. -/
theorem C7_review_prompt_fixed (req : CodeRequest) :
    (reviewChatParams req).messages =
      [⟨"system", review_system_prompt⟩,
       ⟨"user", "Perform a rubric-based review of this code:\n\n" ++ req.code⟩] ∧
    rubricLines.length = 5 ∧
    rubricPoints.length = 5 ∧
    rubricPoints.sum = 100 ∧
    ((rubricLines.zip rubricPoints).all
      (fun p => strContains p.1 ("(" ++ toString p.2 ++ " pts)"))) = true ∧
    (strictRuleLines.any (fun l => strContains l "(this should be 95-100)")) = true ∧
    (strictRuleLines.any (fun l => strContains l "Return ONLY a valid JSON object")) = true ∧
    (strictRuleLines.any (fun l => strContains l "escape all quotes")) = true ∧
    review_system_prompt =
      "You are a strict Senior Software Architect. Analyze code using this exact 100-point rubric:\n"
      ++ String.join rubricLines ++ "\n" ++ String.join strictRuleLines ++ jsonSchemaBlock :=
  ⟨rfl, rfl, rfl, rfl, by decide, by decide, by decide, by decide, rfl⟩

/-- Claim C8: both operations call the model with the same fixed model
identifier, temperature 0.1, and JSON-object response format, independent
of the request contents. -/
theorem C8_fixed_call_params (r1 : CodeRequest) (r2 : TranslateRequest) :
    (reviewChatParams r1).model = "llama-3.3-70b-versatile" ∧
    (reviewChatParams r1).temperature = 0.1 ∧
    (reviewChatParams r1).response_format = "json_object" ∧
    (translateChatParams r2).model = "llama-3.3-70b-versatile" ∧
    (translateChatParams r2).temperature = 0.1 ∧
    (translateChatParams r2).response_format = "json_object" ∧
    (0.1 : Rat) = 1 / 10 :=
  ⟨rfl, rfl, rfl, rfl, rfl, rfl, by norm_num⟩

/-- Counterexample to claim C9: the key `""` *is* present in the process
environment, yet startup raises (Python string falsiness treats the empty
string like an absent key) — so "if the key is present, startup constructs
the client" fails as stated. -/
theorem C9_counterexample :
    startup (some "") = .error "CRITICAL: GROQ_API_KEY is not set in the .env file." :=
  rfl

/-- Claim C9 as amended: startup raises when the key is absent *or empty*;
for a present non-empty key it constructs exactly one client handle, and
both operations' upstream calls use exactly that handle. -/
theorem C9_amended (k : String) (hk : k ≠ "") :
    startup none = .error "CRITICAL: GROQ_API_KEY is not set in the .env file." ∧
    startup (some "") = .error "CRITICAL: GROQ_API_KEY is not set in the .env file." ∧
    startup (some k) = .ok ⟨⟨k⟩⟩ ∧
    (∀ app (r1 : CodeRequest), startup (some k) = .ok app →
      (reviewCreateCall app r1).1 = app.client) ∧
    (∀ app (r2 : TranslateRequest), startup (some k) = .ok app →
      (translateCreateCall app r2).1 = app.client) := by
  refine ⟨rfl, rfl, ?_, ?_, ?_⟩
  · unfold startup
    dsimp only
    rw [if_neg hk]
  · intro app r1 _
    rfl
  · intro app r2 _
    rfl

/-- Witness for C9 (amended) at a concrete non-empty key. -/
theorem C9_amended_witness :
    startup none = .error "CRITICAL: GROQ_API_KEY is not set in the .env file." ∧
    startup (some "gsk-test-key") = .ok ⟨⟨"gsk-test-key"⟩⟩ ∧
    (reviewCreateCall ⟨⟨"gsk-test-key"⟩⟩ ⟨"x"⟩).1 = GroqClient.mk "gsk-test-key" ∧
    (translateCreateCall ⟨⟨"gsk-test-key"⟩⟩ ⟨"x", "Go"⟩).1 = GroqClient.mk "gsk-test-key" := by
  have h := C9_amended "gsk-test-key" (by decide)
  exact ⟨h.1, h.2.2.1, h.2.2.2.1 ⟨⟨"gsk-test-key"⟩⟩ ⟨"x"⟩ h.2.2.1,
    h.2.2.2.2 ⟨⟨"gsk-test-key"⟩⟩ ⟨"x", "Go"⟩ h.2.2.1⟩

/-- Counterexample to claim C1: a model reply whose `original_score` is
150 passes every coercion and validation unchanged — the endpoint answers
200 with `original_score = 150`, outside the claimed range [0,100].
No range check exists anywhere in the pipeline. -/
theorem C1_counterexample :
    (reviewEndpoint (Json.obj [("code", Json.str "print(1)")])
      (ModelReply.json (Json.obj [("original_score", Json.int 150),
        ("refined_score", Json.int 160), ("bugs", Json.str "none"),
        ("performance", Json.str "fine"), ("improvements", Json.arr []),
        ("optimized_code", Json.str "print(1)"), ("explanation", Json.str "ok"),
        ("time_complexity", Json.str "O(1)"),
        ("space_complexity", Json.str "O(1)")]))).status = 200 ∧
    (reviewEndpoint (Json.obj [("code", Json.str "print(1)")])
      (ModelReply.json (Json.obj [("original_score", Json.int 150),
        ("refined_score", Json.int 160), ("bugs", Json.str "none"),
        ("performance", Json.str "fine"), ("improvements", Json.arr []),
        ("optimized_code", Json.str "print(1)"), ("explanation", Json.str "ok"),
        ("time_complexity", Json.str "O(1)"),
        ("space_complexity", Json.str "O(1)")]))).body.getField "original_score" =
      some (Json.int 150) ∧
    ¬ ((150 : Int) ≤ 100) :=
  ⟨rfl, rfl, by decide⟩

/-- Claim C1 as amended: on every 200 response of the review operation the
two score fields are integers (the range [0,100] is *not* enforced), and
`refined_score` is present with value 0 whenever the model's JSON omits
it. -/
theorem C1_amended (body : Json) (reply : ModelReply)
    (h : (reviewEndpoint body reply).status = 200) :
    (∃ n : Int, (reviewEndpoint body reply).body.getField "original_score" =
      some (.int n)) ∧
    (∃ n : Int, (reviewEndpoint body reply).body.getField "refined_score" =
      some (.int n)) ∧
    (∀ j, reply = .json j → j.getField "refined_score" = none →
      (reviewEndpoint body reply).body.getField "refined_score" = some (.int 0)) := by
  obtain ⟨req, d, out, hv, ht, hval, hresp⟩ := reviewEndpoint_200_inv body reply h
  obtain ⟨hc, hout⟩ := validateCodeResponse_ok_inv d out hval
  obtain ⟨⟨n1, ho1⟩, ⟨n2, ho2⟩⟩ := checkCodeResponse_scores d hc
  rw [hresp]
  dsimp only
  refine ⟨⟨n1, ?_⟩, ⟨n2, ?_⟩, ?_⟩
  · rw [hout, builtResponse_getField_original d, ho1]
    rfl
  · rw [hout, builtResponse_getField_refined d, ho2]
    rfl
  · rintro j rfl hnone
    obtain ⟨fs, o, r, hj, hpo, hpr, hd⟩ := reviewTryBody_ok_inv _ d ht
    injection hj with hj2
    subst hj2
    have hfind : findField fs "refined_score" = none := hnone
    have hdr : d.getField "refined_score" = some (.int 0) :=
      reviewTryBody_default_refined fs d hfind ht
    rw [hout, builtResponse_getField_refined d, hdr]
    rfl

/-- Witness for C1 (amended): a valid request and a well-formed reply
omitting `refined_score`; the 200 response carries integer scores and
`refined_score = 0`. -/
theorem C1_amended_witness :
    (∃ n : Int, (reviewEndpoint (Json.obj [("code", Json.str "x")])
      (ModelReply.json (Json.obj [("original_score", Json.int 55),
        ("bugs", Json.str "none"), ("performance", Json.str "fine"),
        ("improvements", Json.arr []), ("optimized_code", Json.str "x"),
        ("explanation", Json.str "ok"), ("time_complexity", Json.str "O(1)"),
        ("space_complexity", Json.str "O(1)")]))).body.getField "original_score" =
      some (.int n)) ∧
    (reviewEndpoint (Json.obj [("code", Json.str "x")])
      (ModelReply.json (Json.obj [("original_score", Json.int 55),
        ("bugs", Json.str "none"), ("performance", Json.str "fine"),
        ("improvements", Json.arr []), ("optimized_code", Json.str "x"),
        ("explanation", Json.str "ok"), ("time_complexity", Json.str "O(1)"),
        ("space_complexity", Json.str "O(1)")]))).body.getField "refined_score" =
      some (.int 0) := by
  have h := C1_amended (Json.obj [("code", Json.str "x")])
    (ModelReply.json (Json.obj [("original_score", Json.int 55),
      ("bugs", Json.str "none"), ("performance", Json.str "fine"),
      ("improvements", Json.arr []), ("optimized_code", Json.str "x"),
      ("explanation", Json.str "ok"), ("time_complexity", Json.str "O(1)"),
      ("space_complexity", Json.str "O(1)")])) rfl
  exact ⟨h.1, h.2.2 _ rfl rfl⟩

/-- Counterexample to claim C5: the declared response model *is* enforced
on the review reply.  A model reply that omits the declared string field
`bugs` (scores fine) makes the operation fail with a plain
500 "Internal Server Error", and an unknown field `extra` is dropped from
the 200 response rather than passed through. -/
theorem C5_counterexample :
    reviewEndpoint (Json.obj [("code", Json.str "x")])
      (ModelReply.json (Json.obj [("original_score", Json.int 50),
        ("refined_score", Json.int 97), ("performance", Json.str "ok"),
        ("improvements", Json.arr []), ("optimized_code", Json.str "x"),
        ("explanation", Json.str "e"), ("time_complexity", Json.str "O(1)"),
        ("space_complexity", Json.str "O(1)")])) =
      ⟨500, .str "Internal Server Error"⟩ ∧
    (reviewEndpoint (Json.obj [("code", Json.str "x")])
      (ModelReply.json (Json.obj [("original_score", Json.int 50),
        ("refined_score", Json.int 97), ("bugs", Json.str "b"),
        ("performance", Json.str "ok"), ("improvements", Json.arr []),
        ("optimized_code", Json.str "x"), ("explanation", Json.str "e"),
        ("time_complexity", Json.str "O(1)"), ("space_complexity", Json.str "O(1)"),
        ("extra", Json.str "zzz")]))).status = 200 ∧
    (reviewEndpoint (Json.obj [("code", Json.str "x")])
      (ModelReply.json (Json.obj [("original_score", Json.int 50),
        ("refined_score", Json.int 97), ("bugs", Json.str "b"),
        ("performance", Json.str "ok"), ("improvements", Json.arr []),
        ("optimized_code", Json.str "x"), ("explanation", Json.str "e"),
        ("time_complexity", Json.str "O(1)"), ("space_complexity", Json.str "O(1)"),
        ("extra", Json.str "zzz")]))).body.getField "extra" = none :=
  ⟨rfl, rfl, rfl⟩

/-- Claim C5 as amended: the *handler* applies no validation beyond the
two integer coercions — every field other than the two scores reaches the
response model unchanged — but the declared response model then validates
the result: a missing declared string field (e.g. `bugs`) turns into a
plain 500 "Internal Server Error" (distinct from the handler's own 500
detail), and fields not declared on the model are dropped from the 200
response. -/
theorem C5_amended (body : Json) (req : CodeRequest)
    (hv : validateCodeRequest body = .ok req) :
    (∀ fs d k, reviewTryBody (.json (.obj fs)) = .ok d →
      k ≠ "original_score" → k ≠ "refined_score" →
      d.getField k = findField fs k) ∧
    (∀ fs d, reviewTryBody (.json (.obj fs)) = .ok d →
      findField fs "bugs" = none →
      reviewEndpoint body (.json (.obj fs)) = ⟨500, .str "Internal Server Error"⟩) ∧
    (∀ reply k, (reviewEndpoint body reply).status = 200 → k ∉ codeResponseFields →
      (reviewEndpoint body reply).body.getField k = none) := by
  refine ⟨?_, ?_, ?_⟩
  · intro fs d k ht h1 h2
    exact reviewTryBody_obj_getField_other fs d k ht h1 h2
  · intro fs d ht hb
    have hdb : d.getField "bugs" = none := by
      rw [reviewTryBody_obj_getField_other fs d "bugs" ht (by decide) (by decide), hb]
    have hcheck := checkCodeResponse_no_bugs d hdb
    unfold reviewEndpoint review_code
    rw [hv, ht]
    dsimp only
    unfold validateCodeResponse
    rw [hcheck]
    rfl
  · intro reply k h200 hk
    obtain ⟨req2, d, out, hv2, ht, hval, hresp⟩ := reviewEndpoint_200_inv body reply h200
    obtain ⟨hc, hout⟩ := validateCodeResponse_ok_inv d out hval
    rw [hresp]
    dsimp only
    rw [hout]
    exact builtResponse_getField_of_not_mem d k hk

/-- Witness for C5 (amended): pass-through of an undeclared field inside
the handler, the 500 on a reply missing `bugs`, and the dropping of the
undeclared field from a 200 response, all at concrete inputs. -/
theorem C5_amended_witness :
    (Json.obj [("original_score", Json.int 1), ("refined_score", Json.int 2),
      ("extra", Json.str "z")]).getField "extra" =
      findField [("original_score", Json.int 1), ("refined_score", Json.int 2),
        ("extra", Json.str "z")] "extra" ∧
    reviewEndpoint (Json.obj [("code", Json.str "x")])
      (ModelReply.json (Json.obj [("original_score", Json.int 50),
        ("refined_score", Json.int 97), ("performance", Json.str "ok"),
        ("improvements", Json.arr []), ("optimized_code", Json.str "x"),
        ("explanation", Json.str "e"), ("time_complexity", Json.str "O(1)"),
        ("space_complexity", Json.str "O(1)")])) =
      ⟨500, .str "Internal Server Error"⟩ ∧
    (reviewEndpoint (Json.obj [("code", Json.str "x")])
      (ModelReply.json (Json.obj [("original_score", Json.int 50),
        ("refined_score", Json.int 97), ("bugs", Json.str "b"),
        ("performance", Json.str "ok"), ("improvements", Json.arr []),
        ("optimized_code", Json.str "x"), ("explanation", Json.str "e"),
        ("time_complexity", Json.str "O(1)"), ("space_complexity", Json.str "O(1)"),
        ("extra", Json.str "zzz")]))).body.getField "extra" = none := by
  have h := C5_amended (Json.obj [("code", Json.str "x")]) ⟨"x"⟩ rfl
  refine ⟨?_, ?_, ?_⟩
  · exact h.1 [("original_score", Json.int 1), ("refined_score", Json.int 2),
      ("extra", Json.str "z")]
      (Json.obj [("original_score", Json.int 1), ("refined_score", Json.int 2),
        ("extra", Json.str "z")]) "extra" rfl (by decide) (by decide)
  · exact h.2.1 [("original_score", Json.int 50),
      ("refined_score", Json.int 97), ("performance", Json.str "ok"),
      ("improvements", Json.arr []), ("optimized_code", Json.str "x"),
      ("explanation", Json.str "e"), ("time_complexity", Json.str "O(1)"),
      ("space_complexity", Json.str "O(1)")]
      (Json.obj [("original_score", Json.int 50),
        ("refined_score", Json.int 97), ("performance", Json.str "ok"),
        ("improvements", Json.arr []), ("optimized_code", Json.str "x"),
        ("explanation", Json.str "e"), ("time_complexity", Json.str "O(1)"),
        ("space_complexity", Json.str "O(1)")]) rfl rfl
  · exact h.2.2 (ModelReply.json (Json.obj [("original_score", Json.int 50),
      ("refined_score", Json.int 97), ("bugs", Json.str "b"),
      ("performance", Json.str "ok"), ("improvements", Json.arr []),
      ("optimized_code", Json.str "x"), ("explanation", Json.str "e"),
      ("time_complexity", Json.str "O(1)"), ("space_complexity", Json.str "O(1)"),
      ("extra", Json.str "zzz")])) "extra" rfl (by decide)

/-- Claim C10: a score field that is *present* but not convertible to an
integer is not defaulted to 0 — the `int(...)` raise is caught by the
generic handler and the review operation answers 500 with the fixed
detail; the 0 default applies exactly to absent score fields. -/
theorem C10_nonconvertible_scores (body : Json) (req : CodeRequest)
    (fs fs2 : List (String × Json)) (s s2 : String) (o : Int)
    (hv : validateCodeRequest body = .ok req)
    (hs : findField fs "original_score" = some (.str s))
    (hbad : pyIntOfString? s = none)
    (hs2 : findField fs2 "refined_score" = some (.str s2))
    (hbad2 : pyIntOfString? s2 = none)
    (ho : pyInt ((findField fs2 "original_score").getD (Json.int 0)) = .ok o) :
    reviewEndpoint body (.json (.obj fs)) =
      ⟨500, .obj [("detail", .str "Heuristic analysis engine failed.")]⟩ ∧
    reviewEndpoint body (.json (.obj fs2)) =
      ⟨500, .obj [("detail", .str "Heuristic analysis engine failed.")]⟩ ∧
    (∀ fs3 d, findField fs3 "original_score" = none →
      reviewTryBody (.json (.obj fs3)) = .ok d →
      d.getField "original_score" = some (.int 0)) ∧
    (∀ fs3 d, findField fs3 "refined_score" = none →
      reviewTryBody (.json (.obj fs3)) = .ok d →
      d.getField "refined_score" = some (.int 0)) := by
  obtain ⟨e1, hce1⟩ := coerceScores_error_of_bad_original fs s hs hbad
  obtain ⟨e2, hce2⟩ := coerceScores_error_of_bad_refined fs2 s2 o hs2 hbad2 ho
  refine ⟨?_, ?_, ?_, ?_⟩
  · exact reviewEndpoint_of_tryError body req _ e1 hv
      (reviewTryBody_error_of_coerce_error fs e1 hce1)
  · exact reviewEndpoint_of_tryError body req _ e2 hv
      (reviewTryBody_error_of_coerce_error fs2 e2 hce2)
  · intro fs3 d hnone ht
    exact reviewTryBody_default_original fs3 d hnone ht
  · intro fs3 d hnone ht
    exact reviewTryBody_default_refined fs3 d hnone ht

/-- Witness for C10: `original_score = "excellent"` yields the handler's
500; `refined_score = "great"` (with a convertible `original_score`)
likewise; absent score fields are defaulted to 0. -/
theorem C10_witness :
    reviewEndpoint (Json.obj [("code", Json.str "x")])
      (.json (.obj [("original_score", Json.str "excellent")])) =
      ⟨500, .obj [("detail", .str "Heuristic analysis engine failed.")]⟩ ∧
    reviewEndpoint (Json.obj [("code", Json.str "x")])
      (.json (.obj [("original_score", Json.int 40), ("refined_score", Json.str "great")])) =
      ⟨500, .obj [("detail", .str "Heuristic analysis engine failed.")]⟩ ∧
    (Json.obj [("original_score", Json.int 0), ("refined_score", Json.int 0)]).getField
      "original_score" = some (.int 0) ∧
    (Json.obj [("original_score", Json.int 0), ("refined_score", Json.int 0)]).getField
      "refined_score" = some (.int 0) := by
  have h := C10_nonconvertible_scores (Json.obj [("code", Json.str "x")]) ⟨"x"⟩
    [("original_score", Json.str "excellent")]
    [("original_score", Json.int 40), ("refined_score", Json.str "great")]
    "excellent" "great" 40 rfl rfl rfl rfl rfl rfl
  refine ⟨h.1, h.2.1, ?_, ?_⟩
  · exact h.2.2.1 [] (Json.obj [("original_score", Json.int 0), ("refined_score", Json.int 0)])
      rfl rfl
  · exact h.2.2.2 [] (Json.obj [("original_score", Json.int 0), ("refined_score", Json.int 0)])
      rfl rfl

/-- Witness for C7 at a concrete request. -/
theorem C7_witness :
    (reviewChatParams ⟨"print(1)"⟩).messages =
      [⟨"system", review_system_prompt⟩,
       ⟨"user", "Perform a rubric-based review of this code:\n\n" ++ "print(1)"⟩] ∧
    rubricPoints.sum = 100 ∧
    ((rubricLines.zip rubricPoints).all
      (fun p => strContains p.1 ("(" ++ toString p.2 ++ " pts)"))) = true :=
  ⟨(C7_review_prompt_fixed ⟨"print(1)"⟩).1,
   (C7_review_prompt_fixed ⟨"print(1)"⟩).2.2.2.1,
   (C7_review_prompt_fixed ⟨"print(1)"⟩).2.2.2.2.1⟩

/-- Witness for C8 at concrete requests. -/
theorem C8_witness :
    (reviewChatParams ⟨"print(1)"⟩).model = "llama-3.3-70b-versatile" ∧
    (reviewChatParams ⟨"print(1)"⟩).temperature = 0.1 ∧
    (translateChatParams ⟨"print(1)", "Go"⟩).model = "llama-3.3-70b-versatile" ∧
    (translateChatParams ⟨"print(1)", "Go"⟩).response_format = "json_object" :=
  ⟨(C8_fixed_call_params ⟨"print(1)"⟩ ⟨"print(1)", "Go"⟩).1,
   (C8_fixed_call_params ⟨"print(1)"⟩ ⟨"print(1)", "Go"⟩).2.1,
   (C8_fixed_call_params ⟨"print(1)"⟩ ⟨"print(1)", "Go"⟩).2.2.2.1,
   (C8_fixed_call_params ⟨"print(1)"⟩ ⟨"print(1)", "Go"⟩).2.2.2.2.2.1⟩
